import Mathlib

/-!
Verification of the Bitcoin time-series analysis utilities
(`Statsmodels_utils-Copy1-checkpoint.py`).

We shallowly embed the pandas-based pipeline:

* a `Series` is an ordered list of `(timestamp, value)` pairs, timestamps in
  epoch milliseconds (`Nat`), values as rationals (`ℚ`);
* `df.resample(freq).mean().dropna()` becomes `resampleMean`: group the
  (ascending) observations by the floor of their timestamp to a multiple of
  `freq`, take the arithmetic mean of each group, keep only non-empty buckets;
* `df.resample(freq).mean().ffill()` becomes `resampleMeanFfill`: same
  grouping, but empty buckets between occupied ones are forward-filled;
* `pd.date_range(start=last + 1min, periods=30, freq="1min")` becomes
  `forecastIndex`;
* the real-time simulation loop (`df.loc[now] = price` per tick) becomes a
  fold of `locSet` over a trace of `(now, price)` ticks;
* the two CoinGecko ingestion paths are modelled over a decoded response
  (`ApiResponse`): `fetch_historical_data` re-raises a `KeyError` when the
  `prices` field is missing, `fetch_and_process_data` returns `None`.
-/

/-- A single observation: (timestamp in epoch milliseconds, price). -/
abbrev Obs : Type := Nat × ℚ

/-- A series: ordered sequence of observations (pandas DataFrame with a
datetime index and one `price` column). -/
abbrev Series : Type := List Obs

/-- One minute in milliseconds (`"1min"`). -/
def minuteMs : Nat := 60000

/-- One hour in milliseconds (`"1H"`). -/
def hourMs : Nat := 3600000

/-- One day in milliseconds (`"1D"`). -/
def dayMs : Nat := 86400000

/-- Bucket assignment of pandas `resample`: the timestamp floored to the
nearest multiple of the frequency `f`. -/
def bucket (f t : Nat) : Nat := f * (t / f)

/-- Group an ascending observation list into buckets of width `f`:
the result pairs each non-empty bucket with the values that fall in it.
Matches pandas grouping for an ascending index, where observations of one
bucket are contiguous. -/
def groupByBucket (f : Nat) : Series → List (Nat × List ℚ)
  | [] => []
  | (t, v) :: rest =>
    match groupByBucket f rest with
    | [] => [(bucket f t, [v])]
    | (b, vs) :: gs =>
      if bucket f t = b then (b, v :: vs) :: gs
      else (bucket f t, [v]) :: (b, vs) :: gs

/-- Arithmetic mean of a list of values (the `.mean()` aggregator). -/
def mean (vs : List ℚ) : ℚ := vs.sum / (vs.length : ℚ)

/-- `df.resample(f).mean().dropna()`: one mean value per non-empty bucket;
empty buckets (which pandas fills with NaN and `dropna` removes) do not
appear. Used by `fetch_historical_data` and `fetch_and_process_data`. -/
def resampleMean (f : Nat) (s : Series) : Series :=
  (groupByBucket f s).map (fun g => (g.1, mean g.2))

/-- The forward-filled buckets strictly between `prev` and `b` (exclusive on
both sides), all carrying the previous bucket's value `pv`. -/
def gapFill (f prev : Nat) (pv : ℚ) (b : Nat) : Series :=
  (List.range ((b - prev) / f - 1)).map (fun i => (prev + f * (i + 1), pv))

/-- Forward-fill the gaps of a bucketed series, given the previous occupied
bucket `prev` with value `pv`. -/
def ffillFrom (f : Nat) (prev : Nat) (pv : ℚ) : Series → Series
  | [] => []
  | (b, v) :: rest => gapFill f prev pv b ++ (b, v) :: ffillFrom f b v rest

/-- `df.resample(f).mean().ffill()`: as `resampleMean`, but buckets between
the first and last occupied bucket are forward-filled with the preceding
value. Used inside `run_arima_analysis`. -/
def resampleMeanFfill (f : Nat) (s : Series) : Series :=
  match (groupByBucket f s).map (fun g => (g.1, mean g.2)) with
  | [] => []
  | (b, v) :: rest => (b, v) :: ffillFrom f b v rest

/-- The opaque fitted-model handle returned by
`ARIMA(df, order=(2,1,2)).fit()` in statsmodels: all this development uses
of it is that it yields one point prediction per future step. -/
structure ArimaResults where
  predict : Nat → ℚ

/-- `results.forecast(steps)`: one point prediction per future step,
`steps` of them. -/
def forecastSteps (results : ArimaResults) (steps : Nat) : List ℚ :=
  (List.range steps).map results.predict

/-- `run_arima_analysis(df)`: resample to 1-minute buckets with forward
fill, fit an ARIMA(2,1,2) model (the numerical fitting is the external
statsmodels library, taken as the opaque parameter `fit`), and forecast 30
steps. Returns the results handle and the forecast values. -/
def run_arima_analysis (fit : Series → Nat × Nat × Nat → ArimaResults)
    (df : Series) : ArimaResults × List ℚ :=
  let resampled := resampleMeanFfill minuteMs df
  let results := fit resampled (2, 1, 2)
  (results, forecastSteps results 30)

/-- `pd.date_range(start=origin + step, periods=periods, freq=step)`, the
forecast-index construction of `plot_forecast` and `save_to_csv`: the i-th
entry (0-based) is `origin + step * (i+1)`. -/
def forecastIndex (origin step periods : Nat) : List Nat :=
  (List.range periods).map (fun i => origin + step * (i + 1))

/-- `save_to_csv(df, forecast)`: builds the forecast index from the last
timestamp of `df` (1-minute step, 30 periods) and pairs it with the
forecast values; `df.index[-1]` fails on an empty frame, hence `Option`.
The persisted CSV rows are the returned (timestamp, forecast) pairs. -/
def save_to_csv (df : Series) (forecast : List ℚ) : Option (List (Nat × ℚ)) :=
  match df.getLast? with
  | none => none
  | some o => some ((forecastIndex o.1 minuteMs 30).zip forecast)

/-- `df.loc[now] = price`: overwrite the row if `now` is already in the
index, otherwise append a new row at the end. -/
def locSet (s : Series) (t : Nat) (v : ℚ) : Series :=
  if s.any (fun o => o.1 = t) then
    s.map (fun o => if o.1 = t then (t, v) else o)
  else s ++ [(t, v)]

/-- `simulate_realtime(df, minutes)`: each successful tick fetches a spot
price, reads the wall clock, and does `df.loc[now] = price`. The trace of
`(now, price)` pairs observed by the loop is the parameter `ticks`. -/
def simulate_realtime (df : Series) (ticks : List (Nat × ℚ)) : Series :=
  ticks.foldl (fun acc tick => locSet acc tick.1 tick.2) df

/-- A decoded provider response: the optional `prices` field of the JSON
body (a list of `[timestamp_ms, price]` pairs) and the raw body text. -/
structure ApiResponse where
  prices : Option (List (Nat × ℚ))
  text : String

/-- Outcome of `fetch_historical_data`: either a resampled DataFrame, or a
re-raised `KeyError` after logging the given messages. -/
inductive FetchOutcome where
  | ok (df : Series)
  | keyError (logged : List String)
deriving DecidableEq

/-- `fetch_historical_data()`: reads `data["prices"]`; a missing field is a
`KeyError`, which is logged (message, then raw body) and re-raised.
Otherwise the pairs become a DataFrame resampled to 1-minute means with
empty buckets dropped. -/
def fetch_historical_data (resp : ApiResponse) : FetchOutcome :=
  match resp.prices with
  | none => .keyError ["Unexpected API response format.", resp.text]
  | some prices => .ok (resampleMean minuteMs prices)

/-- `fetch_and_process_data(days, ...)`: validates that the decoded body
has a `prices` field; if not, logs the message and the raw body and
returns `None`. Otherwise resamples at a frequency chosen by `days`
(1 day → 1 minute, 30 days → 1 hour, anything else → 1 day), drops empty
buckets and returns the DataFrame. The second component is the log. -/
def fetch_and_process_data (days : Int) (resp : ApiResponse) :
    Option Series × List String :=
  match resp.prices with
  | none =>
      (none, ["Unexpected response for " ++ toString days ++ " days.", resp.text])
  | some prices =>
      let df :=
        if days = 1 then resampleMean minuteMs prices
        else if days = 30 then resampleMean hourMs prices
        else resampleMean dayMs prices
      (some df, ["Saved data for the requested range."])

/-! ## Helper lemmas -/

/-- Grouping a series whose timestamps sit on bucket boundaries and whose
adjacent timestamps differ produces one singleton group per observation. -/
theorem groupByBucket_singletons (f : Nat) :
    ∀ s : Series, (∀ o ∈ s, bucket f o.1 = o.1) →
      List.Chain' (fun a b : Obs => a.1 ≠ b.1) s →
      groupByBucket f s = s.map (fun o => (o.1, [o.2]))
  | [], _, _ => rfl
  | (t, v) :: rest, hb, hc => by
    have ih := groupByBucket_singletons f rest
      (fun o ho => hb o (List.mem_cons_of_mem _ ho)) hc.tail
    have hbt : bucket f t = t := hb (t, v) (List.mem_cons_self _ _)
    cases rest with
    | nil => simp [groupByBucket, hbt]
    | cons o2 r2 =>
      have hne : t ≠ o2.1 := (List.chain'_cons.mp hc).1
      rw [groupByBucket, ih]
      simp [hbt, hne]

/-- The mean of a one-element sample is its element. -/
theorem mean_singleton (v : ℚ) : mean [v] = v := by
  simp [mean]

/-- Collapsing singleton groups back through the mean recovers the series. -/
theorem mean_of_singletons (s : Series) :
    (s.map (fun o => (o.1, [o.2]))).map (fun g : Nat × List ℚ => (g.1, mean g.2)) = s := by
  induction s with
  | nil => rfl
  | cons o r ih => simp [ih, mean_singleton]

/-- Grouping a non-empty series whose observations all share the bucket `b`
produces the single group `(b, values)`. -/
theorem groupByBucket_const (f b : Nat) :
    ∀ s : Series, s ≠ [] → (∀ o ∈ s, bucket f o.1 = b) →
      groupByBucket f s = [(b, s.map Prod.snd)]
  | [], h, _ => absurd rfl h
  | (t, v) :: rest, _, hb => by
    have hbt : bucket f t = b := hb (t, v) (List.mem_cons_self _ _)
    cases rest with
    | nil => simp [groupByBucket, hbt]
    | cons o2 r2 =>
      have ih := groupByBucket_const f b (o2 :: r2) (by simp)
        (fun o ho => hb o (List.mem_cons_of_mem _ ho))
      rw [groupByBucket, ih]
      simp [hbt]

/-- When the new timestamp is absent from the index, `df.loc[now] = price`
appends a row at the end. -/
theorem locSet_of_not_mem (s : Series) (t : Nat) (v : ℚ)
    (h : ∀ o ∈ s, o.1 ≠ t) : locSet s t v = s ++ [(t, v)] := by
  have hany : s.any (fun o => o.1 = t) = false := by
    simp only [List.any_eq_false, decide_eq_true_eq]
    exact h
  rw [locSet, hany]
  simp

/-- When the tick clock is strictly increasing and strictly after every
timestamp of the initial series, the simulation loop is a pure append. -/
theorem simulate_eq_append :
    ∀ (df : Series) (ticks : List (Nat × ℚ)),
      (∀ o ∈ df, ∀ p ∈ ticks, o.1 < p.1) →
      List.Pairwise (fun a b : Nat × ℚ => a.1 < b.1) ticks →
      simulate_realtime df ticks = df ++ ticks
  | df, [], _, _ => by simp [simulate_realtime]
  | df, (t, v) :: rest, hafter, hpw => by
    have hnot : ∀ o ∈ df, o.1 ≠ t := fun o ho =>
      Nat.ne_of_lt (hafter o ho (t, v) (List.mem_cons_self _ _))
    have hstep : locSet df t v = df ++ [(t, v)] := locSet_of_not_mem df t v hnot
    have hafter2 : ∀ o ∈ df ++ [(t, v)], ∀ p ∈ rest, o.1 < p.1 := by
      intro o ho p hp
      rcases List.mem_append.mp ho with h1 | h1
      · exact hafter o h1 p (List.mem_cons_of_mem _ hp)
      · have heq : o = (t, v) := by simpa using h1
        subst heq
        exact (List.pairwise_cons.mp hpw).1 p hp
    have ih := simulate_eq_append (df ++ [(t, v)]) rest hafter2
      (List.pairwise_cons.mp hpw).2
    calc simulate_realtime df ((t, v) :: rest)
        = simulate_realtime (locSet df t v) rest := rfl
      _ = simulate_realtime (df ++ [(t, v)]) rest := by rw [hstep]
      _ = (df ++ [(t, v)]) ++ rest := ih
      _ = df ++ (t, v) :: rest := by simp

/-- The i-th entry of the forecast index is `origin + step * (i+1)`. -/
theorem forecastIndex_get? (origin : Nat) (i : Nat) (hi : i < 30) :
    (forecastIndex origin minuteMs 30).get? i = some (origin + minuteMs * (i + 1)) := by
  rw [forecastIndex, List.get?_map, List.get?_range hi]
  rfl

/-! ## Claim theorems -/

/-- C1: for every fit-and-forecast call on a series with last timestamp
`origin` (and all timestamps at most `origin`), the forecast has exactly 30
values; the forecast index used by `save_to_csv`/`plot_forecast` has 30
entries, starts at `origin + step` (step = 1 minute), its i-th entry is
`origin + step*(i+1)`, consecutive entries differ by exactly `step`, and no
forecast timestamp overlaps the input range. -/
theorem forecast_index_continuity
    (fit : Series → Nat × Nat × Nat → ArimaResults) (df : Series)
    (origin : Nat) (v : ℚ) (hlast : df.getLast? = some (origin, v))
    (hmax : ∀ o ∈ df, o.1 ≤ origin) :
    (run_arima_analysis fit df).2.length = 30 ∧
    save_to_csv df (run_arima_analysis fit df).2 =
      some ((forecastIndex origin minuteMs 30).zip (run_arima_analysis fit df).2) ∧
    (forecastIndex origin minuteMs 30).length = 30 ∧
    (forecastIndex origin minuteMs 30).head? = some (origin + minuteMs) ∧
    (∀ i, i < 30 →
      (forecastIndex origin minuteMs 30).get? i = some (origin + minuteMs * (i + 1))) ∧
    List.Chain' (fun a b => b = a + minuteMs) (forecastIndex origin minuteMs 30) ∧
    (∀ o ∈ df, ∀ t ∈ forecastIndex origin minuteMs 30, o.1 < t) := by
  refine ⟨?_, ?_, ?_, ?_, ?_, ?_, ?_⟩
  · simp [run_arima_analysis, forecastSteps]
  · simp [save_to_csv, hlast]
  · simp [forecastIndex]
  · rfl
  · exact fun i hi => forecastIndex_get? origin i hi
  · rw [List.chain'_iff_get]
    intro i h
    have hlen : (forecastIndex origin minuteMs 30).length = 30 := by simp [forecastIndex]
    rw [hlen] at h
    have h1 : i < 30 := by omega
    have h2 : i + 1 < 30 := by omega
    have g1 := forecastIndex_get? origin i h1
    have g2 := forecastIndex_get? origin (i + 1) h2
    rw [List.get?_eq_get (by omega)] at g1
    rw [List.get?_eq_get (by omega)] at g2
    rw [Option.some.inj g1, Option.some.inj g2]
    ring
  · intro o ho t ht
    have h1 : o.1 ≤ origin := hmax o ho
    simp only [forecastIndex, List.mem_map, List.mem_range] at ht
    obtain ⟨i, _, rfl⟩ := ht
    have : 0 < minuteMs * (i + 1) := by
      unfold minuteMs
      positivity
    omega

/-- C1 witness: instantiation at a one-point series and a constant fitted
model. -/
theorem forecast_index_continuity_witness :
    (run_arima_analysis (fun _ _ => ⟨fun _ => 0⟩) [(0, (1 : ℚ))]).2.length = 30 ∧
    save_to_csv [(0, (1 : ℚ))] (run_arima_analysis (fun _ _ => ⟨fun _ => 0⟩) [(0, (1 : ℚ))]).2 =
      some ((forecastIndex 0 minuteMs 30).zip
        (run_arima_analysis (fun _ _ => ⟨fun _ => 0⟩) [(0, (1 : ℚ))]).2) ∧
    (forecastIndex 0 minuteMs 30).length = 30 ∧
    (forecastIndex 0 minuteMs 30).head? = some (0 + minuteMs) ∧
    (∀ i, i < 30 →
      (forecastIndex 0 minuteMs 30).get? i = some (0 + minuteMs * (i + 1))) ∧
    List.Chain' (fun a b => b = a + minuteMs) (forecastIndex 0 minuteMs 30) ∧
    (∀ o ∈ [((0 : Nat), (1 : ℚ))], ∀ t ∈ forecastIndex 0 minuteMs 30, o.1 < t) :=
  forecast_index_continuity (fun _ _ => ⟨fun _ => 0⟩) [(0, (1 : ℚ))] 0 1
    rfl (by simp)

/-- C2 counterexample: at `t0 = 55000` ms (55 s past the minute boundary,
floor `t0_floor = 0`), the scenario input does not resample to the claimed
two-point output — the first two observations straddle a minute boundary,
so three buckets appear. -/
theorem resample_scenario_counterexample :
    bucket 60000 55000 = 0 ∧
    resampleMean 60000 [(55000, (100 : ℚ)), (65000, 102), (125000, 98)] ≠
      [(0, 101), (60000, 98)] := by
  refine ⟨by decide, ?_⟩
  simp [resampleMean, groupByBucket, bucket, mean]

/-- C2 (amended): for every `t0` whose offset into its minute is below 50
seconds — so that `t0 + 10 s` shares `t0`'s bucket and `t0 + 70 s` falls in
the next one — the scenario input resamples to
`[(t0_floor, 101), (t0_floor + 60 s, 98)]`. -/
theorem resample_scenario (t0 : Nat) (h : t0 % 60000 < 50000) :
    resampleMean 60000 [(t0, (100 : ℚ)), (t0 + 10000, 102), (t0 + 70000, 98)] =
      [(bucket 60000 t0, 101), (bucket 60000 t0 + 60000, 98)] := by
  have hb1 : bucket 60000 (t0 + 10000) = bucket 60000 t0 := by unfold bucket; omega
  have hb2 : bucket 60000 (t0 + 70000) = bucket 60000 t0 + 60000 := by unfold bucket; omega
  simp only [resampleMean, groupByBucket, hb1, hb2]
  norm_num [mean]

/-- C2 witness: the amended scenario at `t0 = 30000` ms. -/
theorem resample_scenario_witness :
    30000 % 60000 < 50000 ∧
    resampleMean 60000 [(30000, (100 : ℚ)), (30000 + 10000, 102), (30000 + 70000, 98)] =
      [(bucket 60000 30000, 101), (bucket 60000 30000 + 60000, 98)] :=
  ⟨by decide, resample_scenario 30000 (by decide)⟩

/-- C3: when the wall clock observed by the polling loop is strictly
increasing and strictly after every timestamp of the initial series, a run
with N successful ticks yields `len(initial) + N` points, every tick's
timestamp is strictly greater than every timestamp present in the series at
the moment of its append, and the appended suffix is strictly increasing. -/
theorem simulate_monotone_growth (df : Series) (ticks : List (Nat × ℚ))
    (hafter : ∀ o ∈ df, ∀ p ∈ ticks, o.1 < p.1)
    (hpw : List.Pairwise (fun a b : Nat × ℚ => a.1 < b.1) ticks) :
    (simulate_realtime df ticks).length = df.length + ticks.length ∧
    (∀ (i : Nat) (p : Nat × ℚ), ticks.get? i = some p →
      ∀ o ∈ simulate_realtime df (ticks.take i), o.1 < p.1) ∧
    List.Chain' (fun a b : Nat × ℚ => a.1 < b.1)
      ((simulate_realtime df ticks).drop df.length) := by
  have heq := simulate_eq_append df ticks hafter hpw
  refine ⟨by rw [heq]; simp, ?_, ?_⟩
  · intro i p hip o ho
    have hafterT : ∀ o ∈ df, ∀ q ∈ ticks.take i, o.1 < q.1 :=
      fun o ho q hq => hafter o ho q (List.take_subset i ticks hq)
    have hpwT : List.Pairwise (fun a b : Nat × ℚ => a.1 < b.1) (ticks.take i) :=
      hpw.sublist (List.take_sublist i ticks)
    rw [simulate_eq_append df (ticks.take i) hafterT hpwT] at ho
    rcases List.mem_append.mp ho with h1 | h1
    · exact hafter o h1 p (List.get?_mem hip)
    · obtain ⟨k, hk⟩ := List.mem_iff_get.mp h1
      have hki : (k : Nat) < i := by
        have := k.isLt
        simp [List.length_take] at this
        omega
      have hko : ticks.get? (k : Nat) = some o := by
        rw [← List.get?_take hki, List.get?_eq_get k.isLt]
        exact congrArg some hk
      obtain ⟨hi, hgi⟩ := List.get?_eq_some.mp hip
      obtain ⟨hk2, hgk⟩ := List.get?_eq_some.mp hko
      have hrel := List.pairwise_iff_get.mp hpw ⟨(k : Nat), hk2⟩ ⟨i, hi⟩ hki
      rw [hgk, hgi] at hrel
      exact hrel
  · rw [heq, List.drop_left]
    exact hpw.chain'

/-- C3 witness: a one-point initial series and two later, increasing
ticks. -/
theorem simulate_monotone_growth_witness :
    (simulate_realtime [(0, (1 : ℚ))] [(60000, 2), (120000, 3)]).length =
      ([(0, (1 : ℚ))] : Series).length + ([(60000, (2 : ℚ)), (120000, 3)]).length ∧
    (∀ (i : Nat) (p : Nat × ℚ), ([(60000, (2 : ℚ)), (120000, 3)]).get? i = some p →
      ∀ o ∈ simulate_realtime [(0, (1 : ℚ))] (([(60000, (2 : ℚ)), (120000, 3)]).take i),
        o.1 < p.1) ∧
    List.Chain' (fun a b : Nat × ℚ => a.1 < b.1)
      ((simulate_realtime [(0, (1 : ℚ))] [(60000, 2), (120000, 3)]).drop
        ([(0, (1 : ℚ))] : Series).length) :=
  simulate_monotone_growth [(0, (1 : ℚ))] [(60000, 2), (120000, 3)]
    (by decide) (by decide)

/-- C4: when the decoded provider response lacks the `prices` field,
`fetch_and_process_data` produces no Series (its result is `none`) and the
raw response body is surfaced in the log — no synthetic data is
fabricated. -/
theorem ingest_bad_response (days : Int) (resp : ApiResponse)
    (h : resp.prices = none) :
    (fetch_and_process_data days resp).1 = none ∧
    resp.text ∈ (fetch_and_process_data days resp).2 := by
  simp [fetch_and_process_data, h]

/-- C4 witness: a concrete response without a `prices` field. -/
theorem ingest_bad_response_witness :
    (fetch_and_process_data 1 ⟨none, "oops"⟩).1 = none ∧
    "oops" ∈ (fetch_and_process_data 1 ⟨none, "oops"⟩).2 :=
  ingest_bad_response 1 ⟨none, "oops"⟩ rfl

/-- C5: the bucket-frequency selection of `fetch_and_process_data` maps a
1-day lookback to 1-minute buckets, a 30-day lookback to 1-hour buckets,
and any longer lookback to 1-day buckets, for every integer `days`. -/
theorem ingest_freq_selection (days : Int) (resp : ApiResponse)
    (prices : List (Nat × ℚ)) (h : resp.prices = some prices) :
    (days = 1 →
      (fetch_and_process_data days resp).1 = some (resampleMean minuteMs prices)) ∧
    (days = 30 →
      (fetch_and_process_data days resp).1 = some (resampleMean hourMs prices)) ∧
    (30 < days →
      (fetch_and_process_data days resp).1 = some (resampleMean dayMs prices)) := by
  refine ⟨?_, ?_, ?_⟩ <;> intro hd
  · simp [fetch_and_process_data, h, hd]
  · simp [fetch_and_process_data, h, hd]
  · have h1 : days ≠ 1 := by omega
    have h30 : days ≠ 30 := by omega
    simp [fetch_and_process_data, h, h1, h30]

/-- C5 witness: the three tiers at `days` = 1, 30 and 365 on a concrete
response. -/
theorem ingest_freq_selection_witness :
    (fetch_and_process_data 1 ⟨some [(0, 100)], "ok"⟩).1 =
      some (resampleMean minuteMs [(0, 100)]) ∧
    (fetch_and_process_data 30 ⟨some [(0, 100)], "ok"⟩).1 =
      some (resampleMean hourMs [(0, 100)]) ∧
    (fetch_and_process_data 365 ⟨some [(0, 100)], "ok"⟩).1 =
      some (resampleMean dayMs [(0, 100)]) :=
  ⟨(ingest_freq_selection 1 ⟨some [(0, 100)], "ok"⟩ [(0, 100)] rfl).1 rfl,
   (ingest_freq_selection 30 ⟨some [(0, 100)], "ok"⟩ [(0, 100)] rfl).2.1 rfl,
   (ingest_freq_selection 365 ⟨some [(0, 100)], "ok"⟩ [(0, 100)] rfl).2.2 (by decide)⟩

/-- C7: resampling a series that is already regular at frequency `f` (all
timestamps on bucket boundaries, consecutive timestamps exactly `f` apart)
at `f` with the mean aggregator returns it unchanged. -/
theorem resample_regular_unchanged (f : Nat) (s : Series) (hf : 0 < f)
    (hdvd : ∀ o ∈ s, f ∣ o.1)
    (hstep : List.Chain' (fun a b : Obs => b.1 = a.1 + f) s) :
    resampleMean f s = s := by
  have hb : ∀ o ∈ s, bucket f o.1 = o.1 := by
    intro o ho
    obtain ⟨k, hk⟩ := hdvd o ho
    simp [bucket, hk, Nat.mul_div_cancel_left _ hf]
  have hne : List.Chain' (fun a b : Obs => a.1 ≠ b.1) s :=
    hstep.imp (fun h => by omega)
  rw [resampleMean, groupByBucket_singletons f s hb hne]
  exact mean_of_singletons s

/-- C7 witness: a two-point regular 1-minute series. -/
theorem resample_regular_unchanged_witness :
    resampleMean 60000 [(0, (1 : ℚ)), (60000, 2)] = [(0, (1 : ℚ)), (60000, 2)] :=
  resample_regular_unchanged 60000 [(0, (1 : ℚ)), (60000, 2)]
    (by decide) (by decide) (by simp [List.chain'_cons])

/-- C8 counterexample: two observations only 10 seconds apart (less than one
1-minute bucket width) straddle a minute boundary, so the output has two
points, not one. -/
theorem resample_span_counterexample :
    65000 - 55000 < 60000 ∧
    (resampleMean 60000 [(55000, (1 : ℚ)), (65000, 2)]).length ≠ 1 := by
  refine ⟨by decide, ?_⟩
  simp [resampleMean, groupByBucket, bucket]

/-- C8 (amended): resampling an empty input series yields an empty output
series (not an error), and resampling a non-empty input series whose
observations all fall in the same bucket (equal floored timestamps) yields
a single-point output series, carrying that bucket and the mean value. -/
theorem resample_empty_and_single_bucket :
    (∀ f : Nat, resampleMean f [] = []) ∧
    (∀ (f b : Nat) (s : Series), s ≠ [] → (∀ o ∈ s, bucket f o.1 = b) →
      resampleMean f s = [(b, mean (s.map Prod.snd))]) := by
  constructor
  · intro f
    rfl
  · intro f b s hne hb
    rw [resampleMean, groupByBucket_const f b s hne hb]
    simp

/-- C8 witness: the empty series at 1-minute frequency, and a two-point
series inside the first minute bucket. -/
theorem resample_empty_and_single_bucket_witness :
    resampleMean 60000 ([] : Series) = [] ∧
    resampleMean 60000 [(30000, (5 : ℚ)), (50000, 7)] =
      [(0, mean ([(30000, (5 : ℚ)), (50000, 7)].map Prod.snd))] :=
  ⟨resample_empty_and_single_bucket.1 60000,
   resample_empty_and_single_bucket.2 60000 0 [(30000, (5 : ℚ)), (50000, 7)]
     (by simp) (by decide)⟩

/-- C9: under the same wall-clock monotonicity that governs the polling
loop, `simulate_realtime` only appends: the whole run equals the initial
series followed by the tick observations, so the first `len(initial)`
entries of the output are exactly the initial series — nothing is
overwritten, reordered, or dropped. -/
theorem simulate_preserves_initial (df : Series) (ticks : List (Nat × ℚ))
    (hafter : ∀ o ∈ df, ∀ p ∈ ticks, o.1 < p.1)
    (hpw : List.Pairwise (fun a b : Nat × ℚ => a.1 < b.1) ticks) :
    simulate_realtime df ticks = df ++ ticks ∧
    (simulate_realtime df ticks).take df.length = df := by
  have heq := simulate_eq_append df ticks hafter hpw
  exact ⟨heq, by rw [heq, List.take_left]⟩

/-- C9 witness: a one-point initial series and two later, increasing
ticks. -/
theorem simulate_preserves_initial_witness :
    simulate_realtime [(0, (1 : ℚ))] [(60000, 2), (120000, 3)] =
      [(0, (1 : ℚ))] ++ [(60000, 2), (120000, 3)] ∧
    (simulate_realtime [(0, (1 : ℚ))] [(60000, 2), (120000, 3)]).take
      ([(0, (1 : ℚ))] : Series).length = [(0, (1 : ℚ))] :=
  simulate_preserves_initial [(0, (1 : ℚ))] [(60000, 2), (120000, 3)]
    (by decide) (by decide)

/-- C10: on a response without the `prices` key, `fetch_historical_data`
logs the format message and the raw body and re-raises the `KeyError`
(no DataFrame is produced), while `fetch_and_process_data` returns `None`
for the same condition — the two ingestion paths handle the same
malformed response differently. -/
theorem historical_raises_process_returns_none (resp : ApiResponse)
    (h : resp.prices = none) :
    fetch_historical_data resp =
      FetchOutcome.keyError ["Unexpected API response format.", resp.text] ∧
    (∀ df : Series, fetch_historical_data resp ≠ FetchOutcome.ok df) ∧
    (∀ days : Int, (fetch_and_process_data days resp).1 = none) := by
  refine ⟨?_, ?_, ?_⟩
  · simp [fetch_historical_data, h]
  · intro df
    simp [fetch_historical_data, h]
  · intro days
    simp [fetch_and_process_data, h]

/-- C10 witness: a concrete response without a `prices` field. -/
theorem historical_raises_process_returns_none_witness :
    fetch_historical_data ⟨none, "bad"⟩ =
      FetchOutcome.keyError ["Unexpected API response format.", "bad"] ∧
    (∀ df : Series, fetch_historical_data ⟨none, "bad"⟩ ≠ FetchOutcome.ok df) ∧
    (∀ days : Int, (fetch_and_process_data days ⟨none, "bad"⟩).1 = none) :=
  historical_raises_process_returns_none ⟨none, "bad"⟩ rfl
